import Mathlib

/-!
Verification of `src/Okta-Source/okta-soruce.py`: a one-shot batch job that
fetches Okta users and the app-user membership records of the "bob" (HR)
application, classifies each user as imported-via-bob or manually managed,
and emits a spreadsheet.

The script operates on parsed JSON (Python dicts/lists/strings/numbers), so
the embedding is built on a `Json` value type with Python truthiness, and the
relevant Python primitives (`dict.get`, `x or y`, `str.split`, `in`,
`str.lower`, `str.startswith`, `str.isdigit`, slicing with `str.find`) are
modelled explicitly.  HTTP traffic is modelled as a trace: the list of
responses the server returns for the successive requests of one paginated
fetch.  Wherever the source would raise a `TypeError`/`KeyError` on data that
violates the Okta wire schema (e.g. calling `.get` on a non-dict), the model
returns a null/default value instead; theorems that quantify over arbitrary
inputs carry well-formedness hypotheses where this matters.
-/

set_option autoImplicit false

/-- A parsed JSON value, as produced by `resp.json()` in the source.
Numbers are modelled as integers (no claim involves floats). -/
inductive Json where
  | null
  | bool (b : Bool)
  | num (n : Int)
  | str (s : String)
  | arr (xs : List Json)
  | obj (fields : List (String × Json))
  deriving Repr, Inhabited

/-- Python truthiness of a JSON value (`if x:`). -/
def Json.truthy : Json → Bool
  | .null => false
  | .bool b => b
  | .num n => n != 0
  | .str s => s != ""
  | .arr xs => !xs.isEmpty
  | .obj fs => !fs.isEmpty

mutual

/-- Python `==` on JSON values.  The cross-reference set only ever receives
hashable scalars in practice; on containers Python's `set.add` would raise,
and Python's numeric cross-type equalities (`True == 1`) are not modelled. -/
def Json.beq : Json → Json → Bool
  | .null, .null => true
  | .bool a, .bool b => a == b
  | .num a, .num b => a == b
  | .str a, .str b => a == b
  | .arr a, .arr b => Json.beqList a b
  | .obj a, .obj b => Json.beqFields a b
  | _, _ => false

def Json.beqList : List Json → List Json → Bool
  | [], [] => true
  | a :: as, b :: bs => Json.beq a b && Json.beqList as bs
  | _, _ => false

def Json.beqFields : List (String × Json) → List (String × Json) → Bool
  | [], [] => true
  | (k1, v1) :: as, (k2, v2) :: bs => k1 == k2 && Json.beq v1 v2 && Json.beqFields as bs
  | _, _ => false

end

/-- Membership in the collected id set (`uid in bob_user_ids`).  The source
keeps a Python `set`; a list with `beq`-membership has the same membership
semantics (duplicates are irrelevant to every claim). -/
def memJ (x : Json) : List Json → Bool
  | [] => false
  | y :: ys => Json.beq x y || memJ x ys

/-- `d.get(k, default)` on a dict.  On a non-dict the source would raise
`AttributeError`; the model returns the default. -/
def Json.getD (j : Json) (k : String) (d : Json) : Json :=
  match j with
  | .obj fs =>
    match fs.lookup k with
    | some v => v
    | none => d
  | _ => d

/-- Python `a or b`. -/
def pyOrJ (a b : Json) : Json := if a.truthy then a else b

/-- Is the value a JSON string? (`isinstance(x, str)`). -/
def Json.isStr : Json → Bool
  | .str _ => true
  | _ => false

/-! ## Python string primitives, over character lists -/

/-- Is `p` a leading segment of `s`? -/
def pfxL : List Char → List Char → Bool
  | [], _ => true
  | _ :: _, [] => false
  | a :: as, b :: bs => a == b && pfxL as bs

/-- Python `pat in s` (substring containment). -/
def containsL (pat : List Char) : List Char → Bool
  | [] => pat.isEmpty
  | c :: rest => pfxL pat (c :: rest) || containsL pat rest

/-- Python `pat in s` on strings. -/
def containsS (s pat : String) : Bool := containsL pat.toList s.toList

/-- Python `s.startswith(p)`. -/
def pfxS (p s : String) : Bool := pfxL p.toList s.toList

/-- Worker for `str.split`: left-to-right non-overlapping splitting on a
non-empty separator.  `fuel` bounds the recursion; `s.length + 1` always
suffices because each step consumes at least one character. -/
def pySplitFuel (sep : List Char) : Nat → List Char → List Char → List (List Char)
  | 0, s, cur => [cur.reverse ++ s]
  | fuel + 1, s, cur =>
    match s with
    | [] => [cur.reverse]
    | c :: rest =>
      if pfxL sep s then cur.reverse :: pySplitFuel sep fuel (s.drop sep.length) []
      else pySplitFuel sep fuel rest (c :: cur)

/-- Python `s.split(sep)` for a non-empty separator. -/
def pySplitS (s sep : String) : List String :=
  (pySplitFuel sep.toList (s.toList.length + 1) s.toList []).map String.mk

/-- Python `s.find(c)` for a single character: first index or `-1`. -/
def pyFindIdx (c : Char) : List Char → Int
  | [] => -1
  | x :: xs =>
    if x == c then 0
    else
      match pyFindIdx c xs with
      | r => if r < 0 then -1 else r + 1

/-- Python slice `s[a:b]` (as used with `str.find` results: `a ≥ 0`,
`b` possibly `-1`). -/
def pySliceL (l : List Char) (a b : Int) : List Char :=
  let n : Int := l.length
  let norm := fun (i : Int) => if i < 0 then (max 0 (i + n)).toNat else min i.toNat l.length
  (l.take (norm b)).drop (norm a)

/-- Python `s.lower()` (ASCII; no claim involves non-ASCII case folding). -/
def lowerS (s : String) : String := String.mk (s.toList.map Char.toLower)

/-- Python `s.isdigit()`: non-empty and all digits. -/
def pyIsDigitStr (s : String) : Bool := (s != "") && s.toList.all Char.isDigit

/-- Python `int(s)` on an all-digit string. -/
def digitsToNat (s : String) : Nat :=
  s.toList.foldl (fun n c => n * 10 + (c.toNat - 48)) 0

mutual

/-- Python `repr` of a JSON value (as used inside container `str()`).
Strings are single-quoted without escaping; no claim exercises the
container cases. -/
def pyRepr : Json → String
  | .null => "None"
  | .bool true => "True"
  | .bool false => "False"
  | .num n => toString n
  | .str s => "'" ++ s ++ "'"
  | .arr xs => "[" ++ pyReprList xs ++ "]"
  | .obj fs => "\x7b" ++ pyReprFields fs ++ "\x7d"

def pyReprList : List Json → String
  | [] => ""
  | [x] => pyRepr x
  | x :: xs => pyRepr x ++ ", " ++ pyReprList xs

def pyReprFields : List (String × Json) → String
  | [] => ""
  | [(k, v)] => "'" ++ k ++ "': " ++ pyRepr v
  | (k, v) :: fs => "'" ++ k ++ "': " ++ pyRepr v ++ ", " ++ pyReprFields fs

end

/-- Python `str()` of a JSON value (used by f-string interpolation). -/
def pyStr : Json → String
  | .str s => s
  | j => pyRepr j

/-- Hex digit (uppercase), for percent-encoding. -/
def hexDigit (n : Nat) : Char :=
  if n < 10 then Char.ofNat (48 + n) else Char.ofNat (55 + n)

/-- UTF-8 bytes of a code point. -/
def utf8Bytes (n : Nat) : List Nat :=
  if n < 128 then [n]
  else if n < 2048 then [192 + n / 64, 128 + n % 64]
  else if n < 65536 then [224 + n / 4096, 128 + (n / 64) % 64, 128 + n % 64]
  else [240 + n / 262144, 128 + (n / 4096) % 64, 128 + (n / 64) % 64, 128 + n % 64]

/-- `urllib.parse.quote` with the default `safe="/"`. -/
def pyQuote (s : String) : String :=
  String.mk ((s.toList.map fun c =>
    if c.isAlphanum || c == '_' || c == '.' || c == '-' || c == '~' || c == '/' then [c]
    else (utf8Bytes c.toNat).map (fun b => ['%', hexDigit (b / 16), hexDigit (b % 16)]) |>.flatten).flatten)

example : pySplitS "https://x/api/v1/users/00u123" "/users/" = ["https://x/api/v1", "00u123"] := by decide
example : pySplitS "aaa" "aa" = ["", "a"] := by decide
example : pySplitS "" "," = [""] := by decide
example : containsS "<>; rel=\"next\"" "rel=\"next\"" = true := by decide
example : pySliceL "<>; x".toList (pyFindIdx '<' "<>; x".toList + 1) (pyFindIdx '>' "<>; x".toList) = [] := by decide
example : pyQuote "Hi Bob/2" = "Hi%20Bob/2" := by decide
example : pyStr (Json.str "0oa1") = "0oa1" := rfl
example : lowerS "HiBob" = "hibob" := by decide

/-! ## Rate-limit handling (`_sleep_for_rate_limit`, lines 36-47) -/

/-- `_sleep_for_rate_limit`: for a 429 response, the number of seconds slept
before the source retries (`some` duration and return value `True`); for any
other status, `none` (return value `False`, no sleep).  `resetHeader` is
`resp.headers.get("x-rate-limit-reset")` and `now` is `int(time.time())`. -/
def rateLimitSleep (status : Nat) (resetHeader : Option String) (now : Int) : Option Int :=
  if status ≠ 429 then none
  else some (
    match resetHeader with
    | some r =>
      if (r != "") && pyIsDigitStr r then max ((digitsToNat r : Int) - now + 1) 2 else 2
    | none => 2)

/-! ## Responses and pagination (`_get`, `_get_paginated`, lines 50-81) -/

/-- One HTTP response as the source observes it: status code, parsed JSON
body, the `link`/`Link` headers, and the raw body text used in error
messages. -/
structure Response where
  status : Nat
  body : Json
  linkLower : Option String
  linkUpper : Option String
  text : String
  deriving Repr, Inhabited

/-- `resp.headers.get("link") or resp.headers.get("Link")` (Python `or`:
an empty lower-case header falls through to the upper-case one). -/
def rawLink (r : Response) : Option String :=
  match r.linkLower with
  | some s => if s == "" then r.linkUpper else some s
  | none => r.linkUpper

/-- The angle-bracket URL extraction
`part[part.find("<") + 1 : part.find(">")]`. -/
def extractAngle (part : List Char) : String :=
  String.mk (pySliceL part (pyFindIdx '<' part + 1) (pyFindIdx '>' part))

/-- Scan the comma-separated link-header parts for the first one containing
`rel="next"` and extract its angle-bracket URL (the `for part in
link.split(",")` loop). -/
def scanParts : List (List Char) → Option String
  | [] => none
  | p :: rest =>
    if containsL ("rel=\"next\"").toList p then some (extractAngle p) else scanParts rest

/-- The `next_url` value computed after one response: `None` when the link
header is absent or falsy, otherwise the scan result. -/
def nextUrlOf (r : Response) : Option String :=
  match rawLink r with
  | some s => if s == "" then none else scanParts (pySplitFuel [','] (s.toList.length + 1) s.toList [])
  | none => none

/-- The continuation actually followed: `url = next_url; while url:` treats
an extracted empty URL as termination. -/
def contNext (r : Response) : Option String :=
  match nextUrlOf r with
  | some u => if u == "" then none else some u
  | none => none

/-- Does the response's link header contain a segment marked `rel="next"`
at all? (Used to state the halting condition of the claims.) -/
def hasNextRel (r : Response) : Bool :=
  match rawLink r with
  | some s => (pySplitFuel [','] (s.toList.length + 1) s.toList []).any
      (fun p => containsL ("rel=\"next\"").toList p)
  | none => false

/-- Accumulation step of `_get_paginated`: extend with the elements of a list
body, append any other body as a single item. -/
def bodyItems : Json → List Json
  | .arr xs => xs
  | j => [j]

/-- The fatal error message `f"GET \x7burl\x7d -> \x7bstatus\x7d \x7btext\x7d"`
raised on a non-200, non-429 response. -/
def apiErrMsg (url : String) (r : Response) : String :=
  "GET " ++ url ++ " -> " ++ Nat.repr r.status ++ " " ++ r.text

/-- `_get_paginated` over a response trace.  A 429 response is consumed by
`_get`'s sleep-and-retry loop (`_sleep_for_rate_limit` always returns `True`
for a 429); any other non-200 status raises.  An exhausted trace has no
counterpart in the source (the real loop would issue another request) and is
modelled as an error. -/
def getPagAux : List Response → String → List Json → Except String (List Json)
  | [], url, _ => .error ("trace exhausted before GET " ++ url)
  | r :: rest, url, acc =>
    if r.status = 429 then getPagAux rest url acc
    else if r.status ≠ 200 then .error (apiErrMsg url r)
    else
      let acc' := acc ++ bodyItems r.body
      match contNext r with
      | some u => getPagAux rest u acc'
      | none => .ok acc'

/-- The items of the pages of a trace, in page order. -/
def pagesItems : List Response → List Json
  | [] => []
  | r :: rs => bodyItems r.body ++ pagesItems rs

/-! ## Cross-reference collection (`collect_bob_user_ids`, lines 119-171) -/

/-- The `user_link` value: `_links.user.href`, taken from a dict `user`
value, or from the first element of a non-empty list `user` value.  A
non-dict element or a non-dict `_links` would raise in the source; the model
yields null. -/
def linkHrefOf (item : Json) : Json :=
  let links := item.getD "_links" (.obj [])
  match links.getD "user" .null with
  | .obj fs => Json.getD (.obj fs) "href" .null
  | .arr (x :: _) => x.getD "href" .null
  | _ => .null

/-- Tier 1: `if user_link and "/users/" in user_link:
user_id = user_link.split("/users/")[-1]`.  A truthy non-string href would
raise a `TypeError` in the source; the model yields null. -/
def linkUserId (item : Json) : Json :=
  match linkHrefOf item with
  | .str s =>
    if (s != "") && containsS s "/users/"
    then .str ((pySplitS s "/users/").getLastD "")
    else .null
  | _ => .null

/-- Tier 2: `item.get("_embedded", \x7b\x7d).get("user") or \x7b\x7d`, then
`.get("id")`. -/
def embUserId (item : Json) : Json :=
  (pyOrJ ((item.getD "_embedded" (.obj [])).getD "user" .null) (.obj [])).getD "id" .null

/-- Tier 3: the item's own `id`, kept only when it is a string starting with
`"00u"`. -/
def selfUserId (item : Json) : Json :=
  match item.getD "id" .null with
  | .str s => if pfxS "00u" s then .str s else .null
  | _ => .null

/-- The three-tier id resolution of one app-user membership item
(lines 134-156): each later tier runs only when the previous result is
falsy. -/
def resolveUserId (item : Json) : Json :=
  let u1 := linkUserId item
  if u1.truthy then u1
  else
    let u2 := embUserId item
    if u2.truthy then u2
    else selfUserId item

/-- The ids contributed by a page of items: `if user_id:
user_ids.add(user_id)`.  (A list stands in for the Python set; membership is
what every claim consumes.) -/
def idsFromItems (items : List Json) : List Json :=
  items.filterMap (fun it =>
    let u := resolveUserId it
    if u.truthy then some u else none)

/-- `collect_bob_user_ids` over a response trace: the duplicated pagination
loop of lines 127-169, with per-item id extraction.  Iterating a non-list
body would iterate dict keys and raise in the source; the model contributes
no ids for it. -/
def collectBobAux : List Response → String → List Json → Except String (List Json)
  | [], url, _ => .error ("trace exhausted before GET " ++ url)
  | r :: rest, url, ids =>
    if r.status = 429 then collectBobAux rest url ids
    else if r.status ≠ 200 then .error (apiErrMsg url r)
    else
      let ids' := ids ++ idsFromItems (bodyItems r.body)
      match contNext r with
      | some u => collectBobAux rest u ids'
      | none => .ok ids'

example : resolveUserId (Json.obj [("_links", Json.obj [("user", Json.obj
  [("href", Json.str "https://x/api/v1/users/00u123")])])]) = Json.str "00u123" := rfl
example : resolveUserId (Json.obj [("_links", Json.obj [("user", Json.obj
  [("href", Json.str "https://x/api/v1/users/")])]), ("_embedded", Json.obj [("user", Json.obj
  [("id", Json.str "00uEMB")])])]) = Json.str "00uEMB" := rfl
example : resolveUserId (Json.obj [("id", Json.str "00uSELF")]) = Json.str "00uSELF" := rfl
example : resolveUserId (Json.obj [("id", Json.str "abc")]) = Json.null := rfl
example : idsFromItems [Json.obj [("_embedded", Json.obj [("user", Json.obj
  [("id", Json.num 5)])])]] = [Json.num 5] := rfl

/-! ## App resolution (`resolve_bob_app_id`, lines 84-111) -/

/-- `app.get("label", "")`, as a string.  A non-string label would raise on
`.lower()` in the source; the model reads it as `""` and the app-resolver
theorems carry a well-formedness hypothesis excluding that case. -/
def pyGetLabel (a : Json) : String :=
  match a.getD "label" (.str "") with
  | .str s => s
  | _ => ""

/-- First loop of the label search: exact case-insensitive label match,
returning that app's `id` value (`app["id"]`; a missing key would raise a
`KeyError` in the source and is modelled as null). -/
def findExactApp (lbl : String) : List Json → Option Json
  | [] => none
  | a :: rest =>
    if lowerS (pyGetLabel a) = lowerS lbl then some (a.getD "id" .null)
    else findExactApp lbl rest

/-- Second loop of the label search: first app whose label contains `"bob"`
case-insensitively. -/
def findBobApp : List Json → Option Json
  | [] => none
  | a :: rest =>
    if containsS (lowerS (pyGetLabel a)) "bob" then some (a.getD "id" .null)
    else findBobApp rest

/-- The error raised when neither loop matches. -/
def noMatchMsg (lbl : String) : String :=
  "Could not find a bob app by label '" ++ lbl ++ "'. Set BOB_APP_ID to the exact application ID."

/-- The error raised when neither `BOB_APP_ID` nor `BOB_APP_LABEL` is set. -/
def missingCfgMsg : String :=
  "Set BOB_APP_ID or BOB_APP_LABEL in your .env to identify the 'bob' app"

/-- The selection policy applied to the fetched app list (lines 98-111). -/
def searchApps (lbl : String) (apps : List Json) : Except String Json :=
  match findExactApp lbl apps with
  | some v => .ok v
  | none =>
    match findBobApp apps with
    | some v => .ok v
    | none => .error (noMatchMsg lbl)

/-- The configuration and the response traces of one run.  Each trace lists
the responses the backend returns for the successive requests of that
paginated fetch. -/
structure Env where
  domain : String
  bobAppId : Option String
  bobAppLabel : Option String
  appsTrace : List Response
  usersTrace : List Response
  appUsersTrace : List Response

/-- The app-search URL `f"...apps?q=\x7bq\x7d&limit=200"`. -/
def appsSearchUrl (domain lbl : String) : String :=
  domain ++ "/api/v1/apps?q=" ++ pyQuote lbl ++ "&limit=200"

/-- The label-search arm of `resolve_bob_app_id` (lines 89-111). -/
def resolveByLabel (env : Env) : Except String Json :=
  match env.bobAppLabel with
  | none => .error missingCfgMsg
  | some lbl =>
    if lbl == "" then .error missingCfgMsg
    else
      match getPagAux env.appsTrace (appsSearchUrl env.domain lbl) [] with
      | .error e => .error e
      | .ok apps => searchApps lbl apps

/-- `resolve_bob_app_id`: the externally supplied id short-circuits when
truthy; otherwise the label search runs. -/
def resolve_bob_app_id (env : Env) : Except String Json :=
  match env.bobAppId with
  | some s => if s != "" then .ok (.str s) else resolveByLabel env
  | none => resolveByLabel env

/-! ## Row transformation (`main`, lines 178-227) -/

/-- One output row (lines 212-219). `origin` is always one of the two
classification strings; the other fields carry whatever JSON values the user
record held. -/
structure Row where
  userId : Json
  firstName : Json
  lastName : Json
  email : Json
  origin : String
  oktaConfigurationStatus : Json

/-- `creds`: `(user.get("credentials", \x7b\x7d) or \x7b\x7d)
.get("provider", \x7b\x7d) or \x7b\x7d` (line 191). -/
def credsOf (user : Json) : Json :=
  pyOrJ ((pyOrJ (user.getD "credentials" (.obj [])) (.obj [])).getD "provider" (.obj [])) (.obj [])

/-- The provider-reported status of lines 192-201.  In the `else` branch the
raw `provider_name` value flows through unchanged (it is only a string when
the API sent a string). -/
def providerStatus (user : Json) : Json :=
  let creds := credsOf user
  let provider_type := creds.getD "type" (.str "UNKNOWN")
  let provider_name := creds.getD "name" (.str "UNKNOWN")
  if Json.beq provider_type (.str "OKTA") then .str "Manual (OKTA)"
  else if Json.beq provider_type (.str "FEDERATION") || Json.beq provider_type (.str "IMPORT") then
    .str ("Provisioned (" ++ pyStr provider_name ++ ")")
  else provider_name

/-- The `profile` dict: `user.get("profile", \x7b\x7d) or \x7b\x7d`
(line 190). -/
def profileOf (user : Json) : Json :=
  pyOrJ (user.getD "profile" (.obj [])) (.obj [])

/-- The row built for one user record (lines 188-219): origin and
configuration status from cross-reference membership, profile fields with
empty-string defaults. -/
def mkRow (ids : List Json) (user : Json) : Row :=
  let uid := user.getD "id" .null
  let originImported := memJ uid ids
  { userId := uid
    firstName := (profileOf user).getD "firstName" (.str "")
    lastName := (profileOf user).getD "lastName" (.str "")
    email := (profileOf user).getD "email" (.str "")
    origin := if originImported then "Imported (bob)" else "Manual (OKTA)"
    oktaConfigurationStatus :=
      if originImported then .str "Imported (bob)" else providerStatus user }

/-- The result of one successful run: the resolved app id, the fetched
users, the cross-reference ids and the derived rows (in fetch order). -/
structure MainResult where
  bobAppIdUsed : Json
  users : List Json
  bobUserIds : List Json
  rows : List Row

/-- The whole run (lines 178-219): resolve the app id, fetch the users,
collect the cross-reference ids, derive one row per user.  Any error
propagates uncaught. -/
def mainRun (env : Env) : Except String MainResult :=
  match resolve_bob_app_id env with
  | .error e => .error e
  | .ok appId =>
    match getPagAux env.usersTrace (env.domain ++ "/api/v1/users?limit=200") [] with
    | .error e => .error e
    | .ok users =>
      match collectBobAux env.appUsersTrace
          (env.domain ++ "/api/v1/apps/" ++ pyStr appId ++ "/users?limit=200") [] with
      | .error e => .error e
      | .ok ids => .ok ⟨appId, users, ids, users.map (mkRow ids)⟩

/-- The report file: written (with the rows) only when the run succeeds
(lines 221-227 run after the whole pipeline). -/
def reportOf (env : Env) : Option (List Row) :=
  match mainRun env with
  | .ok res => some res.rows
  | .error _ => none

/-! ## Shared fixtures for witnesses -/

/-- A membership item carrying a standard `_links.user.href`. -/
def memberItem1 : Json :=
  .obj [("_links", .obj [("user", .obj [("href", .str "https://x/api/v1/users/00u1")])])]

/-- A single 200 page holding the given items and no `next` link. -/
def lastPage (items : List Json) : Response :=
  ⟨200, .arr items, none, none, "body"⟩

/-- A user record with a matching id and an OKTA provider. -/
def userRec1 : Json :=
  .obj [("id", .str "00u1"),
        ("profile", .obj [("firstName", .str "Ann"), ("lastName", .str "Lee"),
                          ("email", .str "ann@example.com")]),
        ("credentials", .obj [("provider", .obj [("type", .str "OKTA"), ("name", .str "OKTA")])])]

/-- A user record with no id and a FEDERATION provider. -/
def userRec2 : Json :=
  .obj [("profile", .obj []),
        ("credentials", .obj [("provider", .obj [("type", .str "FEDERATION"), ("name", .str "HiBob")])])]

/-- A membership item whose link href ends right at `/users/` while an
embedded user object is also present. -/
def emptySuffixItem : Json :=
  .obj [("_links", .obj [("user", .obj [("href", .str "https://x/api/v1/users/")])]),
        ("_embedded", .obj [("user", .obj [("id", .str "00uEMB")])])]

/-- A membership item whose embedded user carries a numeric id. -/
def numericIdItem : Json :=
  .obj [("_embedded", .obj [("user", .obj [("id", .num 5)])])]

/-- A membership item resolvable only through its own `id`. -/
def selfOnlyItem : Json := .obj [("id", .str "00uSELF")]

/-! ## Helper lemmas -/

theorem beqStr_iff (a b : String) : Json.beq (.str a) (.str b) = true ↔ a = b := by
  show (a == b) = true ↔ a = b
  exact beq_iff_eq

theorem beq_null_of_truthy (y : Json) (h : y.truthy = true) :
    Json.beq Json.null y = false := by
  cases y <;> simp_all [Json.beq, Json.truthy]

theorem memJ_null_eq_false (ids : List Json) (h : ∀ x ∈ ids, x.truthy = true) :
    memJ Json.null ids = false := by
  induction ids with
  | nil => rfl
  | cons y ys ih =>
    simp only [memJ, Bool.or_eq_false_iff]
    exact ⟨beq_null_of_truthy y (h y (by simp)), ih fun x hx => h x (by simp [hx])⟩

/-! ## C6: rate-limit sleep durations -/

/-- C6: on a 429 response whose reset-time header parses to `now + 5`, the
computed sleep is 6 seconds — at least 5 and strictly less than 7 (reset
minus now plus a 1-second buffer, floored at 2); on a 429 response whose
reset-time header is absent or non-numeric, the computed sleep is exactly
2 seconds. -/
theorem C6_rate_limit_sleep_bounds :
    (∀ (now : Int) (r : String), pyIsDigitStr r = true → (digitsToNat r : Int) = now + 5 →
      ∃ s, rateLimitSleep 429 (some r) now = some s ∧ 5 ≤ s ∧ s < 7) ∧
    (∀ now : Int, rateLimitSleep 429 none now = some 2) ∧
    (∀ (now : Int) (r : String), pyIsDigitStr r = false →
      rateLimitSleep 429 (some r) now = some 2) := by
  refine ⟨fun now r hd hv => ⟨6, ?_, by omega, by omega⟩, fun now => rfl, fun now r hd => ?_⟩
  · have hne : (r != "") = true := by
      cases hr : (r != "")
      · unfold pyIsDigitStr at hd; rw [hr] at hd; simp at hd
      · rfl
    have hmax : max ((digitsToNat r : Int) - now + 1) 2 = 6 := by rw [hv]; omega
    unfold rateLimitSleep
    rw [if_neg (fun h => h rfl)]
    show some (if (r != "") && pyIsDigitStr r then max ((digitsToNat r : Int) - now + 1) 2
      else 2) = some 6
    rw [hne, hd, hmax]
    rfl
  · unfold rateLimitSleep
    rw [if_neg (fun h => h rfl)]
    show some (if (r != "") && pyIsDigitStr r then max ((digitsToNat r : Int) - now + 1) 2
      else 2) = some 2
    rw [hd, Bool.and_false, if_neg (fun h => Bool.false_ne_true h)]

/-- C6 witness: `now = 1000`, reset header `"1005"` sleeps 6 seconds;
a missing or non-numeric header sleeps 2 seconds. -/
theorem C6_rate_limit_sleep_bounds_witness :
    (∃ s, rateLimitSleep 429 (some "1005") 1000 = some s ∧ 5 ≤ s ∧ s < 7) ∧
    rateLimitSleep 429 none 1000 = some 2 ∧
    rateLimitSleep 429 (some "soon") 1000 = some 2 :=
  ⟨C6_rate_limit_sleep_bounds.1 1000 "1005" (by decide) (by decide),
   C6_rate_limit_sleep_bounds.2.1 1000,
   C6_rate_limit_sleep_bounds.2.2 1000 "soon" (by decide)⟩

/-! ## C1: origin classification is exactly set membership -/

/-- C1: for every user record, the `Origin` field of its row is
`"Imported (bob)"` precisely when the user's id is a member of the
cross-reference id set returned by `collect_bob_user_ids`, and otherwise it
is `"Manual (OKTA)"`. -/
theorem C1_origin_iff_membership (responses : List Response) (url : String)
    (ids : List Json) (_hcoll : collectBobAux responses url [] = .ok ids) (user : Json) :
    ((mkRow ids user).origin = "Imported (bob)" ↔ memJ (user.getD "id" Json.null) ids = true) ∧
    ((mkRow ids user).origin ≠ "Imported (bob)" →
      (mkRow ids user).origin = "Manual (OKTA)") := by
  cases hm : memJ (user.getD "id" Json.null) ids <;>
    simp [mkRow, hm]

/-- C1 witness: a user whose id was collected is classified
`"Imported (bob)"`, and the iff holds at that instance. -/
theorem C1_origin_iff_membership_witness :
    ((mkRow [Json.str "00u1"] userRec1).origin = "Imported (bob)" ↔
      memJ (userRec1.getD "id" Json.null) [Json.str "00u1"] = true) ∧
    ((mkRow [Json.str "00u1"] userRec1).origin ≠ "Imported (bob)" →
      (mkRow [Json.str "00u1"] userRec1).origin = "Manual (OKTA)") :=
  C1_origin_iff_membership [lastPage [memberItem1]] "u" [Json.str "00u1"] rfl userRec1

/-! ## C2: final configuration status -/

/-- C2: for every user record whose provider `type` and `name` read back as
strings (with the source's `"UNKNOWN"` defaults when absent), the final
`Okta Configuration Status` is `"Imported (bob)"` when the id is in the
cross-reference set, and otherwise the provider-reported status:
`"Manual (OKTA)"` for type `"OKTA"`, `"Provisioned (<name>)"` for types
`"FEDERATION"`/`"IMPORT"`, else the raw provider name. -/
theorem C2_configuration_status (ids : List Json) (user : Json) (t n : String)
    (ht : (credsOf user).getD "type" (.str "UNKNOWN") = .str t)
    (hn : (credsOf user).getD "name" (.str "UNKNOWN") = .str n) :
    (mkRow ids user).oktaConfigurationStatus =
      (if memJ (user.getD "id" Json.null) ids then Json.str "Imported (bob)"
       else if t = "OKTA" then Json.str "Manual (OKTA)"
       else if t = "FEDERATION" ∨ t = "IMPORT" then Json.str ("Provisioned (" ++ n ++ ")")
       else Json.str n) := by
  cases hm : memJ (user.getD "id" Json.null) ids
  · simp only [mkRow, hm, Bool.false_eq_true, if_false, providerStatus, ht, hn]
    by_cases h1 : t = "OKTA"
    · simp [h1, Json.beq, pyStr]
    · have hb1 : Json.beq (.str t) (.str "OKTA") = false := by
        simp [Json.beq, beq_eq_false_iff_ne, h1]
      by_cases h2 : t = "FEDERATION" ∨ t = "IMPORT"
      · rcases h2 with h2 | h2 <;> simp [h2, Json.beq, pyStr]
      · push_neg at h2
        have hb2 : Json.beq (.str t) (.str "FEDERATION") = false := by
          simp [Json.beq, beq_eq_false_iff_ne, h2.1]
        have hb3 : Json.beq (.str t) (.str "IMPORT") = false := by
          simp [Json.beq, beq_eq_false_iff_ne, h2.2]
        simp [hb1, hb2, hb3, h1, h2.1, h2.2]
  · simp [mkRow, hm]

theorem mem_idsFromItems_truthy (items : List Json) (x : Json)
    (hx : x ∈ idsFromItems items) : x.truthy = true := by
  rcases List.mem_filterMap.mp hx with ⟨a, -, ha⟩
  simp only at ha
  by_cases ht : (resolveUserId a).truthy = true
  · rw [if_pos ht] at ha
    cases ha
    exact ht
  · rw [if_neg ht] at ha
    cases ha

theorem collectBob_mem_truthy (responses : List Response) :
    ∀ (url : String) (acc ids : List Json),
    (∀ x ∈ acc, x.truthy = true) → collectBobAux responses url acc = .ok ids →
    ∀ x ∈ ids, x.truthy = true := by
  induction responses with
  | nil => intro url acc ids _ h; exact Except.noConfusion h
  | cons r rest ih =>
    intro url acc ids hacc h
    have hacc' : ∀ x ∈ acc ++ idsFromItems (bodyItems r.body), x.truthy = true := by
      intro x hx
      rcases List.mem_append.mp hx with hx | hx
      · exact hacc x hx
      · exact mem_idsFromItems_truthy _ x hx
    unfold collectBobAux at h
    split at h
    · exact ih url acc ids hacc h
    · split at h
      · exact Except.noConfusion h
      · split at h
        · exact ih _ _ ids hacc' h
        · cases h
          exact hacc'

/-- C2 witness: a non-member FEDERATION user gets
`"Provisioned (HiBob)"`, via the theorem at that instance. -/
theorem C2_configuration_status_witness :
    (mkRow [] userRec2).oktaConfigurationStatus =
      (if memJ (userRec2.getD "id" Json.null) [] then Json.str "Imported (bob)"
       else if "FEDERATION" = "OKTA" then Json.str "Manual (OKTA)"
       else if "FEDERATION" = "FEDERATION" ∨ "FEDERATION" = "IMPORT" then
         Json.str ("Provisioned (" ++ "HiBob" ++ ")")
       else Json.str "HiBob") :=
  C2_configuration_status [] userRec2 "FEDERATION" "HiBob" rfl rfl

/-! ## C3: link-URL resolution priority (corrected) -/

/-- C3 counterexample: for the membership item whose link href is
`"https://x/api/v1/users/"` (a direct link URL containing `"/users/"`), the
contributed identifier is the embedded user's `"00uEMB"`, not the (empty)
path segment following `"/users/"` — the claim's "regardless of whether the
embedded-object field is present" fails when the extracted segment is
empty. -/
theorem C3_link_url_counterexample :
    linkHrefOf emptySuffixItem = Json.str "https://x/api/v1/users/" ∧
    containsS "https://x/api/v1/users/" "/users/" = true ∧
    resolveUserId emptySuffixItem = Json.str "00uEMB" ∧
    (pySplitS "https://x/api/v1/users/" "/users/").getLastD "" = "" ∧
    "00uEMB" ≠ "" :=
  ⟨rfl, rfl, rfl, rfl, by decide⟩

/-- C3 (amended): if a direct link URL containing `"/users/"` is present and
the trailing portion produced by splitting on `"/users/"` is non-empty, the
contributed identifier equals that trailing portion, regardless of the
embedded-object or self-identifier fields; when the link tier and the
embedded tier yield falsy values and the self-identifier heuristic fails,
the item contributes no identifier. -/
theorem C3_resolution_priority :
    (∀ (item : Json) (s : String), linkHrefOf item = Json.str s →
      containsS s "/users/" = true → (pySplitS s "/users/").getLastD "" ≠ "" →
      resolveUserId item = Json.str ((pySplitS s "/users/").getLastD "")) ∧
    (∀ item : Json, (linkUserId item).truthy = false → (embUserId item).truthy = false →
      selfUserId item = Json.null → idsFromItems [item] = []) := by
  constructor
  · intro item s hhref hcont hsuf
    have hs : (s != "") = true := by
      cases hse : (s != "")
      · have : s = "" := by simpa using hse
        rw [this] at hcont
        exact absurd hcont (by decide)
      · rfl
    have hlink : linkUserId item = Json.str ((pySplitS s "/users/").getLastD "") := by
      unfold linkUserId
      rw [hhref]
      show (if (s != "" && containsS s "/users/") = true
        then Json.str ((pySplitS s "/users/").getLastD "") else Json.null) =
        Json.str ((pySplitS s "/users/").getLastD "")
      rw [hs, hcont]
      rfl
    have htr : (Json.str ((pySplitS s "/users/").getLastD "")).truthy = true := by
      simpa [Json.truthy] using hsuf
    show (if (linkUserId item).truthy = true then linkUserId item
      else if (embUserId item).truthy = true then embUserId item else selfUserId item) =
      Json.str ((pySplitS s "/users/").getLastD "")
    rw [hlink, htr]
    rfl
  · intro item h1 h2 h3
    have hres : resolveUserId item = Json.null := by
      show (if (linkUserId item).truthy = true then linkUserId item
        else if (embUserId item).truthy = true then embUserId item else selfUserId item) =
        Json.null
      rw [h1, h2, h3]
      rfl
    simp [idsFromItems, hres, Json.truthy]

/-- C3 witness: a standard href resolves to the segment after `"/users/"`,
and an item with no resolvable id contributes nothing. -/
theorem C3_resolution_priority_witness :
    resolveUserId memberItem1 =
      Json.str ((pySplitS "https://x/api/v1/users/00u1" "/users/").getLastD "") ∧
    idsFromItems [Json.obj []] = [] :=
  ⟨C3_resolution_priority.1 memberItem1 "https://x/api/v1/users/00u1" rfl rfl (by decide),
   C3_resolution_priority.2 (Json.obj []) rfl rfl rfl⟩

/-! ## C10: elements of the cross-reference set (corrected) -/

/-- C10 counterexample: a membership item whose embedded user carries the
numeric id `5` makes the collector return a set containing the non-string
value `5`, refuting "every element of the cross-reference identifier set is
a non-empty string". -/
theorem C10_nonstring_counterexample :
    collectBobAux [lastPage [numericIdItem]] "u" [] = .ok [Json.num 5] ∧
    (Json.num 5).isStr = false :=
  ⟨rfl, rfl⟩

/-- C10 (amended): every element of the cross-reference identifier set is
truthy — in particular any string element is non-empty, so an extraction
yielding an empty string is discarded — and the self-identifier fallback
contributes the item's own id only when it is a string starting with
`"00u"`; the embedded-user tier, however, passes through whatever truthy id
value the embedded object carries, which need not be a string. -/
theorem C10_id_set_elements :
    (∀ (responses : List Response) (url : String) (ids : List Json),
      collectBobAux responses url [] = .ok ids →
      ∀ x ∈ ids, x.truthy = true ∧ (∀ s, x = Json.str s → s ≠ "")) ∧
    (∀ item : Json, (linkUserId item).truthy = false → (embUserId item).truthy = false →
      resolveUserId item ≠ Json.null →
      ∃ s, resolveUserId item = Json.str s ∧ pfxS "00u" s = true ∧
        item.getD "id" Json.null = Json.str s) := by
  constructor
  · intro responses url ids hcoll x hx
    have htr := collectBob_mem_truthy responses url [] ids
      (fun x hx => absurd hx (List.not_mem_nil x)) hcoll x hx
    refine ⟨htr, fun s hxs => ?_⟩
    rw [hxs] at htr
    simpa [Json.truthy] using htr
  · intro item h1 h2 hne
    have hres : resolveUserId item = selfUserId item := by
      show (if (linkUserId item).truthy = true then linkUserId item
        else if (embUserId item).truthy = true then embUserId item else selfUserId item) =
        selfUserId item
      rw [h1, h2]
      rfl
    rw [hres] at hne ⊢
    unfold selfUserId at hne ⊢
    cases hid : item.getD "id" Json.null with
    | str s =>
      rw [hid] at hne
      have hne' : (if pfxS "00u" s = true then Json.str s else Json.null) ≠ Json.null := hne
      cases hp : pfxS "00u" s
      · rw [hp] at hne'
        exact absurd rfl hne'
      · refine ⟨s, ?_, hp, rfl⟩
        show (if pfxS "00u" s = true then Json.str s else Json.null) = Json.str s
        rw [hp]
        rfl
    | null => rw [hid] at hne; exact absurd rfl hne
    | bool b => rw [hid] at hne; exact absurd rfl hne
    | num n => rw [hid] at hne; exact absurd rfl hne
    | arr xs => rw [hid] at hne; exact absurd rfl hne
    | obj fs => rw [hid] at hne; exact absurd rfl hne

/-- C10 witness: the collected id `"00u1"` is truthy and non-empty, and the
self-identifier tier only fires for a `"00u"`-prefixed string id. -/
theorem C10_id_set_elements_witness :
    ((Json.str "00u1").truthy = true ∧ (∀ s, Json.str "00u1" = Json.str s → s ≠ "")) ∧
    (∃ s, resolveUserId selfOnlyItem = Json.str s ∧ pfxS "00u" s = true ∧
      selfOnlyItem.getD "id" Json.null = Json.str s) :=
  ⟨C10_id_set_elements.1 [lastPage [memberItem1]] "u" [Json.str "00u1"] rfl
      (Json.str "00u1") (List.Mem.head _),
   C10_id_set_elements.2 selfOnlyItem rfl rfl (fun h => Json.noConfusion h)⟩

/-! ## C9: users without an id -/

/-- C9: a user record whose `id` is absent (or null) still yields exactly
one row — the transform maps every fetched user to one row — and that row's
origin is `"Manual (OKTA)"`, because the cross-reference set never contains
a missing identifier (all its elements are truthy, and null is not). -/
theorem C9_missing_id_rows (responses : List Response) (url : String) (ids : List Json)
    (hcoll : collectBobAux responses url [] = .ok ids)
    (users : List Json) (user : Json) (hid : user.getD "id" Json.null = Json.null) :
    (users.map (mkRow ids)).length = users.length ∧
    (mkRow ids user).origin = "Manual (OKTA)" := by
  constructor
  · simp
  · have htr := collectBob_mem_truthy responses url [] ids
      (fun x hx => absurd hx (List.not_mem_nil x)) hcoll
    have hnull : memJ Json.null ids = false := memJ_null_eq_false ids htr
    simp [mkRow, hid, hnull]

/-- C9 witness: a user record with no `id` field is classified
`"Manual (OKTA)"` against a concretely collected set. -/
theorem C9_missing_id_rows_witness :
    (([userRec2].map (mkRow [Json.str "00u1"])).length = [userRec2].length) ∧
    (mkRow [Json.str "00u1"] userRec2).origin = "Manual (OKTA)" :=
  C9_missing_id_rows [lastPage [memberItem1]] "u" [Json.str "00u1"] rfl [userRec2] userRec2 rfl

/-! ## Substring lemmas for error-message claims -/

theorem strToList_append (s t : String) : (s ++ t).toList = s.toList ++ t.toList := by
  cases s
  cases t
  rfl

theorem pfxL_append_self (p v : List Char) : pfxL p (p ++ v) = true := by
  induction p with
  | nil => rfl
  | cons c cs ih => simp [pfxL, ih]

theorem containsL_nil_pat (v : List Char) : containsL [] v = true := by
  cases v <;> simp [containsL, pfxL]

theorem containsL_pfx (pat v : List Char) : containsL pat (pat ++ v) = true := by
  cases pat with
  | nil => exact containsL_nil_pat v
  | cons c cs =>
    show (pfxL (c :: cs) (c :: (cs ++ v)) || containsL (c :: cs) (cs ++ v)) = true
    rw [show pfxL (c :: cs) (c :: (cs ++ v)) = true from pfxL_append_self (c :: cs) v]
    rfl

theorem containsL_self (pat : List Char) : containsL pat pat = true := by
  have h := containsL_pfx pat []
  rwa [List.append_nil] at h

theorem containsL_append_right (u w pat : List Char) (h : containsL pat w = true) :
    containsL pat (u ++ w) = true := by
  induction u with
  | nil => exact h
  | cons c cs ih => simp [containsL, ih]

/-! ## C4: app resolution policy -/

theorem findExactApp_eq_find (lbl : String) (apps : List Json) :
    findExactApp lbl apps =
      (apps.find? (fun a => lowerS (pyGetLabel a) == lowerS lbl)).map
        (fun a => a.getD "id" Json.null) := by
  induction apps with
  | nil => rfl
  | cons a rest ih =>
    by_cases h : lowerS (pyGetLabel a) = lowerS lbl
    · simp [findExactApp, List.find?, h]
    · simp only [findExactApp, if_neg h, ih, List.find?]
      rw [show (lowerS (pyGetLabel a) == lowerS lbl) = false from beq_eq_false_iff_ne.mpr h]

theorem findBobApp_eq_find (apps : List Json) :
    findBobApp apps =
      (apps.find? (fun a => containsS (lowerS (pyGetLabel a)) "bob")).map
        (fun a => a.getD "id" Json.null) := by
  induction apps with
  | nil => rfl
  | cons a rest ih =>
    cases h : containsS (lowerS (pyGetLabel a)) "bob"
    · simp only [findBobApp, h, Bool.false_eq_true, if_false, ih, List.find?]
    · simp [findBobApp, h, List.find?]

/-- C4: the app resolver returns the externally supplied identifier
unchanged and independently of any fetched data when one is present and
truthy; otherwise, over the fetched app list (whose labels are strings, as
the API guarantees), it returns the `id` of the first app matching the
label case-insensitively and exactly, failing that the `id` of the first
app whose label contains `"bob"` case-insensitively, and failing both it
raises an error telling the operator to set `BOB_APP_ID`. -/
theorem C4_app_resolver :
    (∀ (e : Env) (s : String), e.bobAppId = some s → s ≠ "" →
      resolve_bob_app_id e = .ok (Json.str s) ∧
      ∀ t : List Response, resolve_bob_app_id { e with appsTrace := t } = .ok (Json.str s)) ∧
    (∀ (lbl : String) (apps : List Json) (a : Json),
      (∀ b ∈ apps, (b.getD "label" (Json.str "")).isStr = true) →
      apps.find? (fun b => lowerS (pyGetLabel b) == lowerS lbl) = some a →
      searchApps lbl apps = .ok (a.getD "id" Json.null)) ∧
    (∀ (lbl : String) (apps : List Json) (a : Json),
      (∀ b ∈ apps, (b.getD "label" (Json.str "")).isStr = true) →
      apps.find? (fun b => lowerS (pyGetLabel b) == lowerS lbl) = none →
      apps.find? (fun b => containsS (lowerS (pyGetLabel b)) "bob") = some a →
      searchApps lbl apps = .ok (a.getD "id" Json.null)) ∧
    (∀ (lbl : String) (apps : List Json),
      (∀ b ∈ apps, (b.getD "label" (Json.str "")).isStr = true) →
      apps.find? (fun b => lowerS (pyGetLabel b) == lowerS lbl) = none →
      apps.find? (fun b => containsS (lowerS (pyGetLabel b)) "bob") = none →
      searchApps lbl apps = .error (noMatchMsg lbl) ∧
      containsS (noMatchMsg lbl) "Set BOB_APP_ID" = true) := by
  refine ⟨?_, ?_, ?_, ?_⟩
  · intro e s hid hs
    have hbne : (s != "") = true := by simpa using hs
    constructor
    · unfold resolve_bob_app_id
      rw [hid]
      show (if (s != "") = true then Except.ok (Json.str s) else resolveByLabel e) =
        Except.ok (Json.str s)
      rw [hbne]
      rfl
    · intro t
      unfold resolve_bob_app_id
      rw [show ({ e with appsTrace := t } : Env).bobAppId = some s from hid]
      show (if (s != "") = true then Except.ok (Json.str s)
        else resolveByLabel { e with appsTrace := t }) = Except.ok (Json.str s)
      rw [hbne]
      rfl
  · intro lbl apps a _ hfind
    unfold searchApps
    rw [findExactApp_eq_find, hfind]
    rfl
  · intro lbl apps a _ hnone hfind
    unfold searchApps
    rw [findExactApp_eq_find, hnone, findBobApp_eq_find, hfind]
    rfl
  · intro lbl apps _ hnone1 hnone2
    refine ⟨?_, ?_⟩
    · unfold searchApps
      rw [findExactApp_eq_find, hnone1, findBobApp_eq_find, hnone2]
      rfl
    · unfold containsS noMatchMsg
      rw [strToList_append, strToList_append, List.append_assoc]
      refine containsL_append_right _ _ _ ?_
      refine containsL_append_right _ _ _ ?_
      rw [show ("'. Set BOB_APP_ID to the exact application ID.").toList =
        "'. ".toList ++ "Set BOB_APP_ID".toList ++ " to the exact application ID.".toList
        by decide]
      rw [List.append_assoc]
      exact containsL_append_right _ _ _ (containsL_pfx _ _)

/-- C4 witness: a supplied id short-circuits; the spec scenario label
`"HiBob"` against apps `HiBob`/`hibob-test` picks `"0oa1"` by exact match;
a substring-only list falls back; an unmatchable list yields the
descriptive error. -/
theorem C4_app_resolver_witness :
    (resolve_bob_app_id ⟨"https://d", some "0oa77", none, [], [], []⟩ = .ok (Json.str "0oa77")) ∧
    searchApps "HiBob" [Json.obj [("label", Json.str "HiBob"), ("id", Json.str "0oa1")],
      Json.obj [("label", Json.str "hibob-test"), ("id", Json.str "0oa2")]] =
      .ok ((Json.obj [("label", Json.str "HiBob"), ("id", Json.str "0oa1")]).getD "id" Json.null) ∧
    searchApps "Bob" [Json.obj [("label", Json.str "MyBobApp"), ("id", Json.str "0oa3")]] =
      .ok ((Json.obj [("label", Json.str "MyBobApp"), ("id", Json.str "0oa3")]).getD "id" Json.null) ∧
    searchApps "Zed" [Json.obj [("label", Json.str "Payroll"), ("id", Json.str "0oa4")]] =
      .error (noMatchMsg "Zed") ∧
    containsS (noMatchMsg "Zed") "Set BOB_APP_ID" = true :=
  ⟨(C4_app_resolver.1 ⟨"https://d", some "0oa77", none, [], [], []⟩ "0oa77" rfl (by decide)).1,
   C4_app_resolver.2.1 "HiBob" _ _ (by decide) rfl,
   C4_app_resolver.2.2.1 "Bob" _ _ (by decide) rfl rfl,
   C4_app_resolver.2.2.2 "Zed" _ (by decide) rfl rfl⟩

/-! ## C7: non-200/429 responses are fatal -/

/-- A failing response fixture. -/
def r404 : Response := ⟨404, Json.null, none, none, "Not Found"⟩

/-- An environment with neither app id nor label configured. -/
def envNoCfg : Env := ⟨"https://d", none, none, [], [], []⟩

/-- C7: a response whose status is neither 200 nor 429 makes both paginated
fetch loops fail with the fatal message `GET <url> -> <status> <text>`,
whose text contains the request URL, the status code and the body text; any
failing run propagates to an error result and the report is not written. -/
theorem C7_api_error_fatal (url : String) (r : Response) (rest : List Response)
    (acc ids0 : List Json) (h200 : r.status ≠ 200) (h429 : r.status ≠ 429) :
    (getPagAux (r :: rest) url acc = .error (apiErrMsg url r) ∧
     collectBobAux (r :: rest) url ids0 = .error (apiErrMsg url r)) ∧
    (containsS (apiErrMsg url r) url = true ∧
     containsS (apiErrMsg url r) (Nat.repr r.status) = true ∧
     containsS (apiErrMsg url r) r.text = true) ∧
    (∀ (env : Env) (msg : String), mainRun env = .error msg → reportOf env = none) := by
  have hlist : (apiErrMsg url r).toList =
      "GET ".toList ++ url.toList ++ " -> ".toList ++ (Nat.repr r.status).toList ++
        " ".toList ++ r.text.toList := by
    unfold apiErrMsg
    rw [strToList_append, strToList_append, strToList_append, strToList_append,
      strToList_append]
  refine ⟨⟨?_, ?_⟩, ⟨?_, ?_, ?_⟩, ?_⟩
  · unfold getPagAux
    rw [if_neg h429, if_pos h200]
  · unfold collectBobAux
    rw [if_neg h429, if_pos h200]
  · unfold containsS
    rw [hlist]
    simp only [List.append_assoc]
    exact containsL_append_right _ _ _ (containsL_pfx _ _)
  · unfold containsS
    rw [hlist]
    simp only [List.append_assoc]
    exact containsL_append_right _ _ _ (containsL_append_right _ _ _
      (containsL_append_right _ _ _ (containsL_pfx _ _)))
  · unfold containsS
    rw [hlist]
    simp only [List.append_assoc]
    exact containsL_append_right _ _ _ (containsL_append_right _ _ _
      (containsL_append_right _ _ _ (containsL_append_right _ _ _
        (containsL_append_right _ _ _ (containsL_self _)))))
  · intro env msg h
    unfold reportOf
    rw [h]

/-- C7 witness: a 404 response aborts both loops with a message containing
the URL, the status and the body; an unconfigured run errors and writes no
report. -/
theorem C7_api_error_fatal_witness :
    ((getPagAux [r404] "https://d/api/v1/users?limit=200" [] =
        .error (apiErrMsg "https://d/api/v1/users?limit=200" r404) ∧
      collectBobAux [r404] "https://d/api/v1/users?limit=200" [] =
        .error (apiErrMsg "https://d/api/v1/users?limit=200" r404)) ∧
     (containsS (apiErrMsg "https://d/api/v1/users?limit=200" r404)
        "https://d/api/v1/users?limit=200" = true ∧
      containsS (apiErrMsg "https://d/api/v1/users?limit=200" r404) (Nat.repr r404.status) = true ∧
      containsS (apiErrMsg "https://d/api/v1/users?limit=200" r404) r404.text = true)) ∧
    reportOf envNoCfg = none :=
  ⟨⟨(C7_api_error_fatal "https://d/api/v1/users?limit=200" r404 [] [] []
      (by decide) (by decide)).1,
    (C7_api_error_fatal "https://d/api/v1/users?limit=200" r404 [] [] []
      (by decide) (by decide)).2.1⟩,
   (C7_api_error_fatal "https://d/api/v1/users?limit=200" r404 [] [] []
      (by decide) (by decide)).2.2 envNoCfg missingCfgMsg rfl⟩

/-! ## C5: pagination accumulation and halting (corrected) -/

/-- A 200 page whose link header carries a `rel="next"` segment with an
empty angle-bracket URL. -/
def nextEmptyPage : Response :=
  ⟨200, Json.arr [], some "<>; rel=\"next\"", none, "body"⟩

/-- A 200 page with two items and a well-formed `next` link. -/
def linkedPage : Response :=
  ⟨200, Json.arr [Json.num 1, Json.num 2], some "<https://n/2>; rel=\"next\"", none, "body"⟩

/-- C5 counterexample: a response whose link header does contain a
`rel="next"` segment, but whose angle-bracket URL is empty, makes the
traversal halt (the falsy `next_url` exits the loop), so "halts exactly
when a response's link header contains no next segment" fails: the second
trace response is never consumed. -/
theorem C5_halting_counterexample :
    getPagAux [nextEmptyPage, lastPage [Json.num 1]] "start" [] = .ok [] ∧
    hasNextRel nextEmptyPage = true :=
  ⟨rfl, rfl⟩

/-- C5 (amended): over any trace whose first `k+1` responses return
status 200, if the first `k` responses each yield a usable continuation URL
and response `k` yields none (no `rel="next"` segment, or an empty
extracted URL), the paginated fetch returns exactly the accumulator
followed by every item of every consumed page in page order — a list body
extends the accumulation, any other body is appended as one item. -/
theorem C5_pagination_accumulates (responses : List Response) :
    ∀ (k : Nat) (hk : k < responses.length) (url : String) (acc : List Json),
    (∀ r ∈ responses.take (k + 1), r.status = 200) →
    (∀ r ∈ responses.take k, contNext r ≠ none) →
    contNext (responses.get ⟨k, hk⟩) = none →
    getPagAux responses url acc = .ok (acc ++ pagesItems (responses.take (k + 1))) := by
  induction responses with
  | nil => intro k hk; exact absurd hk (by simp)
  | cons r rest ih =>
    intro k hk url acc h200 hgo hstop
    have hr200 : r.status = 200 := h200 r (by rw [List.take_succ_cons]; exact List.mem_cons_self r _)
    unfold getPagAux
    rw [if_neg (by rw [hr200]; omega), if_neg (fun h => h hr200)]
    cases k with
    | zero =>
      rw [show contNext r = none from hstop]
      simp [pagesItems]
    | succ k' =>
      have hnext : contNext r ≠ none :=
        hgo r (by rw [List.take_succ_cons]; exact List.mem_cons_self r _)
      cases hc : contNext r with
      | none => exact absurd hc hnext
      | some u =>
        have hk' : k' < rest.length := by simpa using hk
        have hrec := ih k' hk' u (acc ++ bodyItems r.body)
          (fun r' hr' => h200 r' (by rw [List.take_succ_cons]; exact List.mem_cons_of_mem r hr'))
          (fun r' hr' => hgo r' (by rw [List.take_succ_cons]; exact List.mem_cons_of_mem r hr'))
          hstop
        show getPagAux rest u (acc ++ bodyItems r.body) =
          .ok (acc ++ pagesItems (List.take (k' + 1 + 1) (r :: rest)))
        rw [hrec, List.take_succ_cons]
        simp [pagesItems, List.append_assoc]

/-- C5 witness: a two-page trace accumulates `[1, 2, 3]` in page order and
halts on the page without a next link. -/
theorem C5_pagination_accumulates_witness :
    getPagAux [linkedPage, lastPage [Json.num 3]] "u" [] =
      .ok ([] ++ pagesItems (List.take 2 [linkedPage, lastPage [Json.num 3]])) :=
  C5_pagination_accumulates [linkedPage, lastPage [Json.num 3]] 1 (by decide) "u" []
    (by intro r hr; fin_cases hr <;> rfl)
    (by intro r hr; fin_cases hr; decide)
    rfl

/-! ## C8: determinism of the row derivation -/

theorem mainRun_rows (env : Env) (res : MainResult) (h : mainRun env = .ok res) :
    res.rows = res.users.map (mkRow res.bobUserIds) := by
  unfold mainRun at h
  split at h
  · exact Except.noConfusion h
  · split at h
    · exact Except.noConfusion h
    · split at h
      · exact Except.noConfusion h
      · cases h
        rfl

/-- C8: the derived rows are a deterministic function of the fetched users
and the cross-reference id set: any two successful runs that observed the
same user list and the same id set produce identical ordered rows — in
particular, two runs against identical backend responses produce identical
row sets. -/
theorem C8_deterministic_rows (e1 e2 : Env) (r1 r2 : MainResult)
    (h1 : mainRun e1 = .ok r1) (h2 : mainRun e2 = .ok r2)
    (hu : r1.users = r2.users) (hi : r1.bobUserIds = r2.bobUserIds) :
    r1.rows = r2.rows := by
  rw [mainRun_rows e1 r1 h1, mainRun_rows e2 r2 h2, hu, hi]

/-- An environment for a complete successful run. -/
def envA : Env :=
  ⟨"https://d", some "0oa9", none, [], [lastPage [userRec1]], [lastPage [memberItem1]]⟩

/-- The same backend data as `envA`, with different raw body texts (which a
row derivation must not depend on). -/
def envB : Env :=
  ⟨"https://d", some "0oa9", none, [],
   [⟨200, Json.arr [userRec1], none, none, "other text"⟩],
   [⟨200, Json.arr [memberItem1], none, none, "another text"⟩]⟩

/-- C8 witness: two runs over the same backend data (differing only in raw
response text) yield identical rows. -/
theorem C8_deterministic_rows_witness :
    (MainResult.mk (Json.str "0oa9") [userRec1] [Json.str "00u1"]
      [mkRow [Json.str "00u1"] userRec1]).rows =
    (MainResult.mk (Json.str "0oa9") [userRec1] [Json.str "00u1"]
      [mkRow [Json.str "00u1"] userRec1]).rows :=
  C8_deterministic_rows envA envB
    (MainResult.mk (Json.str "0oa9") [userRec1] [Json.str "00u1"]
      [mkRow [Json.str "00u1"] userRec1])
    (MainResult.mk (Json.str "0oa9") [userRec1] [Json.str "00u1"]
      [mkRow [Json.str "00u1"] userRec1])
    rfl rfl rfl rfl
